import Mathlib

/-!
# Verification of the BrowsingContext / RelatedContextSet lifecycle core

A shallow embedding of the browsing-context lifecycle tracker:

* `BrowsingContext::AddRef` / `BrowsingContext::Release`
  (docshell/base/NBrowsingContext.cpp, lines 7-42),
* `BrowsingContext::Die` / `BrowsingContext::DieInternal`
  (docshell/base/NBrowsingContext.cpp, lines 44-72),
* the process-wide registry `sBrowsingContexts` with
  `BrowsingContext::Get` / `BrowsingContext::GetOrCreate` and the
  destructor's registry removal,
* `BrowsingContext::Attach` / `BrowsingContext::Detach` over the
  linked-list child collections,
* `RelatedContextSet`'s constructor and destructor over the
  `sKnownSets` table (docshell/base/RelatedContextSet.cpp),
* the epoch-based unsubscribe handshake, modelled from the spec
  (its implementation is not part of the excerpted sources).

Machine integers (`nsrefcnt`, `uint64_t`) are modelled as `Nat`: the
reference-counting code asserts `mRefCnt > 0` before decrementing and the
identifiers are opaque keys, so no wrap-around behaviour is observable.
Release-fatal assertions (`MOZ_RELEASE_ASSERT`, `MOZ_DIAGNOSTIC_ASSERT`)
and undefined behaviour (null-pointer dereference) are modelled as the
`none` branch of an `Option` result; debug-only `MOZ_ASSERT`s are compiled
out in release builds and appear as hypotheses of theorems instead.
-/

namespace BCLife

/-- `BrowsingContext::State` (NBrowsingContext header). -/
inductive BCState where
  | Active
  | Background
  | Dead
deriving DecidableEq, Repr

/-- The fields of a `BrowsingContext` that `AddRef`/`Release` read:
the reference count and the lifecycle state (`IsDead()` tests
`mState == State::Dead`). -/
structure RCtx where
  mRefCnt : Nat
  mState : BCState
deriving DecidableEq, Repr

/-- `IsDead()`: whether the context's state is `Dead`. -/
def RCtx.IsDead (c : RCtx) : Bool :=
  c.mState = BCState.Dead

/-- `BrowsingContext::AddRef` (NBrowsingContext.cpp lines 7-21):
increment `mRefCnt`; if the new count is 1 and the context is not dead,
call `mContextSet->RegisterContextRef(this)`.  Returns the updated
context, the returned count, and whether the set was notified. -/
def AddRef (c : RCtx) : RCtx × Nat × Bool :=
  let count := c.mRefCnt + 1
  ({ c with mRefCnt := count }, count, count == 1 && !c.IsDead)

/-- `BrowsingContext::Release` (NBrowsingContext.cpp lines 23-42):
decrement `mRefCnt`; if the new count is 0 then either `delete this`
(when dead, modelled by returning `none` for the object) or call
`mContextSet->UnregisterContextRef(this)`.  Returns the surviving
context (if any), the returned count, and whether the set was
notified. -/
def Release (c : RCtx) : Option RCtx × Nat × Bool :=
  let count := c.mRefCnt - 1
  if count = 0 then
    if c.IsDead then (none, 0, false)
    else (some { c with mRefCnt := 0 }, 0, true)
  else (some { c with mRefCnt := count }, count, false)

/-- The fields of a registered `BrowsingContext` that the registry model
needs: the identifier (`mBrowsingContextId`), the reference count, and the
lifecycle state. -/
structure LCtx where
  id : Nat
  mRefCnt : Nat
  mState : BCState
deriving DecidableEq, Repr

/-- The process-wide registry `sBrowsingContexts`
(`nsDataHashtable<nsUint64HashKey, BrowsingContext*>`), as a map from
identifiers to the registered context's fields. -/
def Registry : Type := Nat → Option LCtx

/-- `BrowsingContext::Get(aId)`: look the identifier up in
`sBrowsingContexts`. -/
def Get (reg : Registry) (aId : Nat) : Option LCtx :=
  reg aId

/-- The registry effect of `Die()` on one context: `Die`/`DieInternal`
set `mState = State::Dead` but make no registry call, so the context
stays registered under its identifier with only its state changed. -/
def dieMark (reg : Registry) (aId : Nat) : Registry :=
  fun j =>
    if j = aId then
      (reg aId).map (fun c => { c with mState := BCState.Dead })
    else reg j

/-- The registry effect of `BrowsingContext::Release` on the context
registered under `aId`: the count is decremented; when it reaches 0 and
the context is dead, `delete this` runs and the destructor removes the
identifier from `sBrowsingContexts` (part_000 lines 409-413); otherwise
the context stays registered. -/
def ReleaseReg (reg : Registry) (aId : Nat) : Registry :=
  fun j =>
    if j = aId then
      match reg aId with
      | none => none
      | some c =>
        let count := c.mRefCnt - 1
        if count = 0 ∧ c.mState = BCState.Dead then none
        else some { c with mRefCnt := count }
    else reg j

end BCLife

namespace BCRegistry

/-- The registry entry created by the remote-description constructor
`BrowsingContext(aBrowsingContextId, aName)`: the identifier and the
name. -/
structure BCEnt where
  mBrowsingContextId : Nat
  mName : String
deriving DecidableEq, Repr

/-- The `sBrowsingContexts` table for the `GetOrCreate` model. -/
def Reg : Type := Nat → Option BCEnt

/-- `BrowsingContext::GetOrCreate(aId, aName)` (part_000 lines 315-324):
look `aId` up in `sBrowsingContexts`; if absent, run the constructor,
which `Put`s the new context into the table under its identifier.
Returns the updated table and the context handed back. -/
def GetOrCreate (reg : Reg) (aId : Nat) (aName : String) : Reg × BCEnt :=
  match reg aId with
  | some abc => (reg, abc)
  | none =>
    let abc : BCEnt := ⟨aId, aName⟩
    (fun j => if j = aId then some abc else reg j, abc)

end BCRegistry

namespace BCTreeOps

/-- The state that `BrowsingContext::Attach`/`Detach` (part_000 lines
341-383) read and write, seen from one context `self`:

* `rootList` — the process-wide `sRootBrowsingContexts` list;
* `parentChildren` — the candidate parent's `mChildren` list;
* `inList` — `self.isInList()`, whether `self`'s `LinkedListElement`
  is currently linked into any child collection;
* `mParent` — `self`'s weak parent pointer.

Both collections are ordered lists of context identifiers
(`insertBack` appends; `remove` unlinks `self` from the one list that
holds it, modelled as erasing `self`'s identifier from both, which
agrees because an element is linked into at most one list).  The
`SendAttachBrowsingContext`/`SendDetachBrowsingContext` IPC
notifications touch no child collection and are omitted. -/
structure AWorld where
  rootList : List Nat
  parentChildren : List Nat
  inList : Bool
  mParent : Option Nat
deriving DecidableEq, Repr

/-- `BrowsingContext::Attach(aParent)`: if `isInList()`, return (the
attach is a no-op); otherwise append `self` to `aParent->mChildren`
(or to `sRootBrowsingContexts` when `aParent` is null) and set
`mParent = aParent`. -/
def Attach (w : AWorld) (selfId : Nat) (aParent : Option Nat) : AWorld :=
  if w.inList then w
  else
    match aParent with
    | some p =>
      { w with parentChildren := w.parentChildren ++ [selfId]
               mParent := some p, inList := true }
    | none =>
      { w with rootList := w.rootList ++ [selfId]
               mParent := none, inList := true }

/-- `BrowsingContext::Detach()`: if `!isInList()`, return; otherwise
`remove()` unlinks `self` from the collection holding it (the
`kungFuDeathGrip` self-reference only delays destruction during the
call and has no effect on the collections). -/
def Detach (w : AWorld) (selfId : Nat) : AWorld :=
  if !w.inList then w
  else
    { w with rootList := w.rootList.erase selfId
             parentChildren := w.parentChildren.erase selfId
             inList := false }

end BCTreeOps

namespace BCDie

/-- The per-node fields of the `NBrowsingContext` variant that
`Die`/`DieInternal` read and write, apart from the `mAllChildren`
array: identifier, lifecycle state, weak parent pointer, and the
`mLiveChildren` array (child identifiers). -/
structure CtxData where
  id : Nat
  mState : BCLife.BCState
  mParent : Option Nat
  mLiveChildren : List Nat
deriving DecidableEq, Repr

/-- A context together with the subtree hanging off its `mAllChildren`
array.  `DieInternal` recurses exactly along `mAllChildren`, so the
reachable subtree is embedded structurally. -/
inductive Ctx where
  | mk (data : CtxData) (mAllChildren : List Ctx)

/-- The non-child fields of a node. -/
def Ctx.data : Ctx → CtxData
  | .mk d _ => d

/-- The `mAllChildren` subtrees of a node. -/
def Ctx.mAllChildren : Ctx → List Ctx
  | .mk _ cs => cs

mutual

/-- `BrowsingContext::DieInternal` (NBrowsingContext.cpp lines 54-72):
move `mAllChildren` into a local array (leaving it empty), recurse into
each child, then set `mParent = nullptr` and `mState = State::Dead`.
`mLiveChildren` is not touched.  The result lists the post-state of
every node of the subtree; each node's `mAllChildren` array ends empty,
so the nodes are returned flat. -/
def DieInternal : Ctx → List CtxData
  | .mk d children =>
    { d with mParent := none, mState := BCLife.BCState.Dead } ::
      dieChildren children

/-- The `for (BrowsingContext* child : children) child->DieInternal();`
loop of `DieInternal`, collecting the post-states of the visited
nodes in visit order. -/
def dieChildren : List Ctx → List CtxData
  | [] => []
  | c :: cs => DieInternal c ++ dieChildren cs

end

mutual

/-- The flat list of node fields of a subtree, in the same order
`DieInternal` visits them. -/
def Ctx.nodes : Ctx → List CtxData
  | .mk d children => d :: nodesList children

def nodesList : List Ctx → List CtxData
  | [] => []
  | c :: cs => Ctx.nodes c ++ nodesList cs

end

/-- The two child collections of the node that `mParent` points to. -/
structure PView where
  mAllChildren : List Nat
  mLiveChildren : List Nat
deriving DecidableEq, Repr

/-- `BrowsingContext::Die` (NBrowsingContext.cpp lines 44-52):
`mParent->mAllChildren.RemoveElement(this)` and
`mParent->mLiveChildren.RemoveElement(this)` — dereferencing `mParent`
with no null check (modelled as `none` when the pointer is null or
dangling) — followed by `DieInternal()`.  `RemoveElement` deletes the
first occurrence.  Returns the parent's updated collections and the
post-state of the subtree's nodes. -/
def Die (root : Ctx) (deref : Nat → Option PView) :
    Option (PView × List CtxData) :=
  match root.data.mParent with
  | none => none
  | some p =>
    match deref p with
    | none => none
    | some pv =>
      some ({ mAllChildren := pv.mAllChildren.erase root.data.id
              mLiveChildren := pv.mLiveChildren.erase root.data.id },
            DieInternal root)

end BCDie

namespace RCS

/-- The static state that `RelatedContextSet`'s constructor and
destructor (RelatedContextSet.cpp lines 22-52) read and write:

* `sKnownSets` — the process-wide table of known group identifiers
  (`none` when the table has not been created or was cleared at
  shutdown);
* `sChromeSet` — the weak pointer to the chrome singleton, as the
  identifier of the set it points to;
* `unsubscribeCalls` — the `ContentChild::Unsubscribe` calls issued so
  far, newest first. -/
structure SWorld where
  sKnownSets : Option (List Nat)
  sChromeSet : Option Nat
  unsubscribeCalls : List Nat
deriving DecidableEq, Repr

/-- The per-instance fields of a `RelatedContextSet`: `mUniqueID` and
the member table `mContexts` (as context identifiers). -/
structure RCSet where
  mUniqueID : Nat
  mContexts : List Nat
deriving DecidableEq, Repr

/-- `RelatedContextSet::RelatedContextSet(aUniqueID)`
(RelatedContextSet.cpp lines 22-33): create `sKnownSets` if absent,
then `LookupForAdd(mUniqueID)`; `MOZ_RELEASE_ASSERT(!e)` aborts on a
duplicate identifier (modelled as `none`), otherwise the new set is
inserted under its identifier. -/
def rcsCtor (w : SWorld) (aUniqueID : Nat) : Option SWorld :=
  let table := w.sKnownSets.getD []
  if aUniqueID ∈ table then none
  else some { w with sKnownSets := some (aUniqueID :: table) }

/-- `RelatedContextSet::~RelatedContextSet`
(RelatedContextSet.cpp lines 35-52): assert `mContexts.IsEmpty()`
(modelled as `none` on violation); if `sKnownSets` exists, remove
`mUniqueID` from it and assert the removal found it; null out
`sChromeSet` if it points at this set; in a content process, call
`ContentChild::Unsubscribe(mUniqueID)`. -/
def rcsDtor (w : SWorld) (s : RCSet) (isContentProcess : Bool) :
    Option SWorld :=
  if !s.mContexts.isEmpty then none
  else
    let removed : Option (Option (List Nat)) :=
      match w.sKnownSets with
      | none => some none
      | some table =>
        if s.mUniqueID ∈ table then some (some (table.erase s.mUniqueID))
        else none
    match removed with
    | none => none
    | some known =>
      let chrome :=
        if w.sChromeSet = some s.mUniqueID then none else w.sChromeSet
      let calls :=
        if isContentProcess then s.mUniqueID :: w.unsubscribeCalls
        else w.unsubscribeCalls
      some { sKnownSets := known, sChromeSet := chrome
             unsubscribeCalls := calls }

end RCS

namespace Epoch

/-- Modelled from the spec: the per-process, per-group subscription
state machine of the cross-process unsubscribe handshake (spec §4.2).
Its implementation (the `ContentChild`/`ContentParent` sides of
`RegisterContextRef`/`UnregisterContextRef` and the
`UnsubscribeGroup` message handlers) is not among the excerpted
sources; only its callers appear. -/
inductive SubState where
  | Subscribed
  | UnsubscribePending
  | Unsubscribed
deriving DecidableEq, Repr

/-- Modelled from the spec: a group's local handshake state — the
subscription state, the epoch counter, and the live-context count. -/
structure Group where
  state : SubState
  epoch : Nat
  liveCount : Nat
deriving DecidableEq, Repr

/-- Modelled from the spec: the effect of a member context's reference
count transitioning 0→1 (`RegisterContextRef`): if the group is in
`UnsubscribePending`, abort the pending unsubscription by incrementing
the epoch and return to `Subscribed`; in any case the live count goes
up by one. -/
def registerRef (g : Group) : Group :=
  if g.state = SubState.UnsubscribePending then
    { g with state := SubState.Subscribed, epoch := g.epoch + 1
             liveCount := g.liveCount + 1 }
  else { g with liveCount := g.liveCount + 1 }

/-- Modelled from the spec: the effect of a member context's reference
count transitioning 1→0 (`UnregisterContextRef`): the live count goes
down by one; when it reaches 0 the group moves to `UnsubscribePending`
and sends `(groupId, epoch)` to the authority.  The second component is
the epoch carried by the request, when one was sent. -/
def unregisterRef (g : Group) : Group × Option Nat :=
  let live := g.liveCount - 1
  if live = 0 then
    ({ g with state := SubState.UnsubscribePending, liveCount := 0 },
     some g.epoch)
  else ({ g with liveCount := live }, none)

/-- Modelled from the spec: receipt of an unsubscribe acknowledgement
`(epoch, success)`: if it succeeded and the local epoch still matches
while an unsubscribe is pending, transition to `Unsubscribed`;
otherwise discard it (a newer subscription has superseded the
request).  The second component reports whether the acknowledgement
was accepted. -/
def recvAck (g : Group) (ackEpoch : Nat) (success : Bool) :
    Group × Bool :=
  if success && ackEpoch == g.epoch &&
      g.state == SubState.UnsubscribePending then
    ({ g with state := SubState.Unsubscribed }, true)
  else (g, false)

end Epoch

namespace BCDie

/-- The field update `DieInternal` applies to every node it visits:
clear the parent pointer and set the state to `Dead`. -/
def killData (d : CtxData) : CtxData :=
  { d with mParent := none, mState := BCLife.BCState.Dead }

end BCDie

/-! ## Theorems -/

mutual

/-- `DieInternal` kills every node of the subtree and changes nothing
else: its result is exactly the node list of the subtree with each
node's parent pointer cleared and state set to `Dead` (identifiers and
`mLiveChildren` untouched). -/
theorem BCDie.DieInternal_eq_nodes :
    ∀ c : BCDie.Ctx,
      BCDie.DieInternal c = c.nodes.map BCDie.killData
  | .mk d children => by
    rw [BCDie.DieInternal, BCDie.Ctx.nodes, List.map_cons,
      BCDie.dieChildren_eq_nodesList children]
    rfl

/-- The list form of `DieInternal_eq_nodes`, for the child loop. -/
theorem BCDie.dieChildren_eq_nodesList :
    ∀ cs : List BCDie.Ctx,
      BCDie.dieChildren cs = (BCDie.nodesList cs).map BCDie.killData
  | [] => rfl
  | c :: cs => by
    rw [BCDie.dieChildren, BCDie.nodesList, List.map_append,
      BCDie.DieInternal_eq_nodes c, BCDie.dieChildren_eq_nodesList cs]

end

/-- C1 (counterexample): on the concrete tree with root context 1
(child array `[context 2]`, `mLiveChildren = [2]`) attached under
parent 0, `Die()` leaves identifier 2 — a descendant of the subtree
root — inside context 1's `mLiveChildren`, so a descendant does remain
in a live child collection after the call, contrary to the claim.  The
first conjunct records that 2 is a node of the subtree; the second
evaluates the call: both contexts end `Dead`, yet context 1 still lists
2 among its live children. -/
theorem C1_counterexample :
    ((BCDie.Ctx.mk ⟨1, BCLife.BCState.Active, some 0, [2]⟩
        [BCDie.Ctx.mk ⟨2, BCLife.BCState.Active, some 1, []⟩ []]).nodes.map
      (fun d => d.id) = [1, 2]) ∧
    ((BCDie.Die
        (BCDie.Ctx.mk ⟨1, BCLife.BCState.Active, some 0, [2]⟩
          [BCDie.Ctx.mk ⟨2, BCLife.BCState.Active, some 1, []⟩ []])
        (fun j => if j = 0 then some ⟨[1], [1]⟩ else none)).map
      (fun r => r.2.map (fun d => (d.id, d.mState, d.mLiveChildren)))
      = some [(1, BCLife.BCState.Dead, [2]),
              (2, BCLife.BCState.Dead, [])]) :=
  ⟨rfl, rfl⟩

/-- C1 (amended): for a Context whose parent pointer resolves and whose
parent's child arrays are duplicate-free, `die()` recursively sets
every node of the subtree to `Dead`, clears every node's parent
pointer, and removes the subtree root from the parent's all-children
and live-children collections; each node's own live-children array,
however, is left unchanged (descendants below the root stay listed in
their dead parents' live-child collections). -/
theorem C1_die_kills_subtree (root : BCDie.Ctx)
    (deref : Nat → Option BCDie.PView) (p : Nat) (pv : BCDie.PView)
    (hp : root.data.mParent = some p) (hpv : deref p = some pv)
    (hall : pv.mAllChildren.Nodup) (hlive : pv.mLiveChildren.Nodup) :
    ∃ pv' ds, BCDie.Die root deref = some (pv', ds) ∧
      root.data.id ∉ pv'.mAllChildren ∧
      root.data.id ∉ pv'.mLiveChildren ∧
      (∀ d ∈ ds,
        d.mState = BCLife.BCState.Dead ∧ d.mParent = none) ∧
      ds.map (fun d => (d.id, d.mLiveChildren)) =
        root.nodes.map (fun d => (d.id, d.mLiveChildren)) := by
  have hDie : BCDie.Die root deref =
      some (⟨pv.mAllChildren.erase root.data.id,
             pv.mLiveChildren.erase root.data.id⟩,
            BCDie.DieInternal root) := by
    simp [BCDie.Die, hp, hpv]
  refine ⟨_, _, hDie, hall.not_mem_erase, hlive.not_mem_erase, ?_, ?_⟩
  · intro d hd
    rw [BCDie.DieInternal_eq_nodes] at hd
    obtain ⟨a, -, rfl⟩ := List.mem_map.mp hd
    exact ⟨rfl, rfl⟩
  · rw [BCDie.DieInternal_eq_nodes, List.map_map]
    rfl

/-- C1 witness: the amended theorem applied to the concrete
two-context tree of the counterexample. -/
theorem C1_witness :
    ∃ pv' ds,
      BCDie.Die
        (BCDie.Ctx.mk ⟨1, BCLife.BCState.Active, some 0, [2]⟩
          [BCDie.Ctx.mk ⟨2, BCLife.BCState.Active, some 1, []⟩ []])
        (fun j => if j = 0 then some ⟨[1], [1]⟩ else none)
        = some (pv', ds) ∧
      (1 : Nat) ∉ pv'.mAllChildren ∧
      (1 : Nat) ∉ pv'.mLiveChildren ∧
      (∀ d ∈ ds,
        d.mState = BCLife.BCState.Dead ∧ d.mParent = none) ∧
      ds.map (fun d => (d.id, d.mLiveChildren)) =
        (BCDie.Ctx.mk ⟨1, BCLife.BCState.Active, some 0, [2]⟩
          [BCDie.Ctx.mk ⟨2, BCLife.BCState.Active, some 1, []⟩
            []]).nodes.map (fun d => (d.id, d.mLiveChildren)) :=
  C1_die_kills_subtree
    (BCDie.Ctx.mk ⟨1, BCLife.BCState.Active, some 0, [2]⟩
      [BCDie.Ctx.mk ⟨2, BCLife.BCState.Active, some 1, []⟩ []])
    (fun j => if j = 0 then some ⟨[1], [1]⟩ else none) 0 ⟨[1], [1]⟩
    rfl rfl (by decide) (by decide)

/-- C9: `Die()` begins with `mParent->mAllChildren.RemoveElement(this)`
with no null check, so a null (or dangling) parent pointer is
dereferenced — modelled as the `none` outcome — exactly when `mParent`
does not resolve; with a resolvable parent the call completes. -/
theorem C9_die_derefs_parent (root : BCDie.Ctx)
    (deref : Nat → Option BCDie.PView) :
    (root.data.mParent = none → BCDie.Die root deref = none) ∧
    (∀ p pv, root.data.mParent = some p → deref p = some pv →
      (BCDie.Die root deref).isSome = true) := by
  constructor
  · intro h
    simp [BCDie.Die, h]
  · intro p pv hp hpv
    simp [BCDie.Die, hp, hpv]

/-- C9 witness: `Die()` on a concrete parentless (root) context fails,
and on the counterexample tree (whose root has parent 0) it
completes. -/
theorem C9_witness :
    BCDie.Die (BCDie.Ctx.mk ⟨3, BCLife.BCState.Active, none, []⟩ [])
      (fun _ => none) = none ∧
    (BCDie.Die
      (BCDie.Ctx.mk ⟨1, BCLife.BCState.Active, some 0, [2]⟩
        [BCDie.Ctx.mk ⟨2, BCLife.BCState.Active, some 1, []⟩ []])
      (fun j => if j = 0 then some ⟨[1], [1]⟩ else none)).isSome
      = true :=
  ⟨(C9_die_derefs_parent
      (BCDie.Ctx.mk ⟨3, BCLife.BCState.Active, none, []⟩ [])
      (fun _ => none)).1 rfl,
   (C9_die_derefs_parent
      (BCDie.Ctx.mk ⟨1, BCLife.BCState.Active, some 0, [2]⟩
        [BCDie.Ctx.mk ⟨2, BCLife.BCState.Active, some 1, []⟩ []])
      (fun j => if j = 0 then some ⟨[1], [1]⟩ else none)).2
     0 ⟨[1], [1]⟩ rfl rfl⟩

/-- C2: for a Context that is not `Dead`, `AddRef` calls
`RegisterContextRef` exactly when the reference count goes 0→1, and
`Release` calls `UnregisterContextRef` exactly when it goes 1→0 (the
code asserts the count is positive before a `Release`); no other call
notifies the set. -/
theorem C2_refcount_group_notifications (c : BCLife.RCtx)
    (hdead : c.mState ≠ BCLife.BCState.Dead) :
    ((BCLife.AddRef c).2.2 = true ↔ c.mRefCnt = 0) ∧
    (0 < c.mRefCnt →
      ((BCLife.Release c).2.2 = true ↔ c.mRefCnt = 1)) := by
  constructor
  · simp [BCLife.AddRef, BCLife.RCtx.IsDead, hdead]
  · intro hpos
    unfold BCLife.Release
    simp only [BCLife.RCtx.IsDead]
    rcases Nat.lt_or_ge 1 c.mRefCnt with h | h
    · rw [if_neg (by omega)]
      simpa using by omega
    · have h1 : c.mRefCnt = 1 := by omega
      rw [h1]
      simp [hdead]

/-- C2 witness: the notification criterion at the concrete live
context with reference count 1. -/
theorem C2_witness :
    ((BCLife.AddRef ⟨1, BCLife.BCState.Active⟩).2.2 = true ↔
      (1 : Nat) = 0) ∧
    ((BCLife.Release ⟨1, BCLife.BCState.Active⟩).2.2 = true ↔
      (1 : Nat) = 1) :=
  ⟨(C2_refcount_group_notifications ⟨1, BCLife.BCState.Active⟩
      (by decide)).1,
   (C2_refcount_group_notifications ⟨1, BCLife.BCState.Active⟩
      (by decide)).2 (by decide)⟩

/-- C10: `AddRef` on a `Dead` context increments the count but never
calls `RegisterContextRef`, because the 0→1 hook is guarded by
`!IsDead()`. -/
theorem C10_dead_addref_never_notifies (c : BCLife.RCtx)
    (hdead : c.mState = BCLife.BCState.Dead) :
    (BCLife.AddRef c).2.1 = c.mRefCnt + 1 ∧
    (BCLife.AddRef c).2.2 = false := by
  simp [BCLife.AddRef, BCLife.RCtx.IsDead, hdead]

/-- C10 witness: an `AddRef` taking a dead context's count from 0 to 1
does not notify the set. -/
theorem C10_witness :
    (BCLife.AddRef ⟨0, BCLife.BCState.Dead⟩).2.1 = 0 + 1 ∧
    (BCLife.AddRef ⟨0, BCLife.BCState.Dead⟩).2.2 = false :=
  C10_dead_addref_never_notifies ⟨0, BCLife.BCState.Dead⟩ rfl

/-- C3: marking a context `Dead` leaves it in `sBrowsingContexts`
(lookup still succeeds, now with state `Dead`); `Release` removes it
from the registry precisely when the count reaches 0 while the context
is `Dead` (only then does `delete this` run the destructor, which
unregisters the identifier); in particular, after the context has been
marked `Dead`, the registry entry disappears exactly when the count
reaches 0. -/
theorem C3_dead_context_not_freed (reg : BCLife.Registry) (aId : Nat)
    (c : BCLife.LCtx) (hc : BCLife.Get reg aId = some c)
    (hpos : 0 < c.mRefCnt) :
    BCLife.Get (BCLife.dieMark reg aId) aId
        = some { c with mState := BCLife.BCState.Dead } ∧
    (BCLife.Get (BCLife.ReleaseReg reg aId) aId = none ↔
        (c.mRefCnt = 1 ∧ c.mState = BCLife.BCState.Dead)) ∧
    (BCLife.Get (BCLife.ReleaseReg (BCLife.dieMark reg aId) aId) aId
        = none ↔ c.mRefCnt = 1) := by
  have hc' : reg aId = some c := hc
  refine ⟨?_, ?_, ?_⟩
  · simp [BCLife.Get, BCLife.dieMark, hc']
  · by_cases h1 : c.mRefCnt = 1
    · by_cases h2 : c.mState = BCLife.BCState.Dead
      · simp [BCLife.Get, BCLife.ReleaseReg, hc', h1, h2]
      · simp [BCLife.Get, BCLife.ReleaseReg, hc', h1, h2]
    · have h3 : ¬(c.mRefCnt - 1 = 0) := by omega
      simp [BCLife.Get, BCLife.ReleaseReg, hc', h3, h1]
  · by_cases h1 : c.mRefCnt = 1
    · simp [BCLife.Get, BCLife.ReleaseReg, BCLife.dieMark, hc', h1]
    · have h3 : ¬(c.mRefCnt - 1 = 0) := by omega
      simp [BCLife.Get, BCLife.ReleaseReg, BCLife.dieMark, hc', h3, h1]

/-- C3 witness: the deferred-destruction facts at a concrete registry
holding context 7 with reference count 1. -/
theorem C3_witness :
    BCLife.Get
      (BCLife.dieMark
        (fun j => if j = 7 then
          some ⟨7, 1, BCLife.BCState.Active⟩ else none) 7) 7
      = some ⟨7, 1, BCLife.BCState.Dead⟩ ∧
    (BCLife.Get
      (BCLife.ReleaseReg
        (fun j => if j = 7 then
          some ⟨7, 1, BCLife.BCState.Active⟩ else none) 7) 7 = none ↔
        ((1 : Nat) = 1 ∧
          BCLife.BCState.Active = BCLife.BCState.Dead)) ∧
    (BCLife.Get
      (BCLife.ReleaseReg
        (BCLife.dieMark
          (fun j => if j = 7 then
            some ⟨7, 1, BCLife.BCState.Active⟩ else none) 7) 7) 7
      = none ↔ (1 : Nat) = 1) :=
  C3_dead_context_not_freed
    (fun j => if j = 7 then some ⟨7, 1, BCLife.BCState.Active⟩ else none)
    7 ⟨7, 1, BCLife.BCState.Active⟩ rfl (by decide)

/-- C7: for a context that is in no child collection (and, since
identifiers are unique, whose identifier occurs in neither candidate
collection), `Attach(aParent)` followed immediately by `Detach()`
leaves both the root list and the parent's `mChildren` exactly as they
were before the attach, whichever of the two the attach targeted. -/
theorem C7_attach_detach_identity (w : BCTreeOps.AWorld) (selfId : Nat)
    (aParent : Option Nat)
    (hin : w.inList = false)
    (hroot : selfId ∉ w.rootList)
    (hpar : selfId ∉ w.parentChildren) :
    (BCTreeOps.Detach
        (BCTreeOps.Attach w selfId aParent) selfId).rootList
      = w.rootList ∧
    (BCTreeOps.Detach
        (BCTreeOps.Attach w selfId aParent) selfId).parentChildren
      = w.parentChildren := by
  unfold BCTreeOps.Attach
  rw [hin]
  cases aParent with
  | some p =>
    unfold BCTreeOps.Detach
    simp only [Bool.false_eq_true, if_false, Bool.not_true, if_true]
    constructor
    · exact List.erase_of_not_mem hroot
    · rw [List.erase_append_right _ hpar]
      simp
  | none =>
    unfold BCTreeOps.Detach
    simp only [Bool.false_eq_true, if_false, Bool.not_true, if_true]
    constructor
    · rw [List.erase_append_right _ hroot]
      simp
    · exact List.erase_of_not_mem hpar

/-- C7 witness: the attach/detach round trip on a concrete world with
root list `[10]` and parent children `[20]`, attaching context 5 under
a parent. -/
theorem C7_witness :
    ((BCTreeOps.Detach
        (BCTreeOps.Attach ⟨[10], [20], false, none⟩ 5 (some 3))
        5).rootList = ([10] : List Nat)) ∧
    ((BCTreeOps.Detach
        (BCTreeOps.Attach ⟨[10], [20], false, none⟩ 5 (some 3))
        5).parentChildren = ([20] : List Nat)) :=
  C7_attach_detach_identity ⟨[10], [20], false, none⟩ 5 (some 3)
    rfl (by decide) (by decide)

/-- C8: `GetOrCreate(aId, ·)` called twice with the same identifier
hands back the same underlying context: the second call finds the
registration `Put` by the first call's constructor (or both find a
pre-existing registration), whatever names are supplied. -/
theorem C8_getOrCreate_same_context (reg : BCRegistry.Reg) (aId : Nat)
    (n1 n2 : String) :
    (BCRegistry.GetOrCreate
        (BCRegistry.GetOrCreate reg aId n1).1 aId n2).2 =
      (BCRegistry.GetOrCreate reg aId n1).2 ∧
    (BCRegistry.GetOrCreate reg aId n1).1 aId =
      some (BCRegistry.GetOrCreate reg aId n1).2 := by
  unfold BCRegistry.GetOrCreate
  cases h : reg aId with
  | some abc => simp [h]
  | none => simp [h]

/-- C6: registering a `RelatedContextSet` hits the
`MOZ_RELEASE_ASSERT(!e, "Duplicate RelatedContextSet ID")` abort
exactly when the identifier is already in `sKnownSets`; a fresh
identifier always registers successfully and ends up in the table. -/
theorem C6_duplicate_group_id_fatal (w : RCS.SWorld) (aUniqueID : Nat) :
    (RCS.rcsCtor w aUniqueID = none ↔
      aUniqueID ∈ w.sKnownSets.getD []) ∧
    (aUniqueID ∉ w.sKnownSets.getD [] →
      ∃ w', RCS.rcsCtor w aUniqueID = some w' ∧
        w'.sKnownSets = some (aUniqueID :: w.sKnownSets.getD [])) := by
  unfold RCS.rcsCtor
  dsimp only
  constructor
  · split_ifs with h <;> simp [h]
  · intro h
    rw [if_neg h]
    exact ⟨_, rfl, rfl⟩

/-- C6 witness: constructing with the already-registered identifier 4
aborts; constructing with the fresh identifier 9 succeeds. -/
theorem C6_witness :
    (RCS.rcsCtor ⟨some [4], none, []⟩ 4 = none ↔
      (4 : Nat) ∈ (some [4] : Option (List Nat)).getD []) ∧
    ∃ w', RCS.rcsCtor ⟨some [4], none, []⟩ 9 = some w' ∧
      w'.sKnownSets =
        some (9 :: (some [4] : Option (List Nat)).getD []) :=
  ⟨(C6_duplicate_group_id_fatal ⟨some [4], none, []⟩ 4).1,
   (C6_duplicate_group_id_fatal ⟨some [4], none, []⟩ 9).2 (by decide)⟩

/-- C5: when a `RelatedContextSet` destructor runs to completion (no
assertion aborts) while the `sKnownSets` table exists, its member set
`mContexts` is empty at that moment, its identifier was still present
in the table when the destructor ran (so it had not been removed
before), and the destructor removes it (it is absent afterwards) —
i.e. the removal happens exactly once, at destruction. -/
theorem C5_dtor_removes_once (w : RCS.SWorld) (s : RCS.RCSet)
    (isContentProcess : Bool) (w' : RCS.SWorld) (table : List Nat)
    (htable : w.sKnownSets = some table) (hnodup : table.Nodup)
    (h : RCS.rcsDtor w s isContentProcess = some w') :
    s.mContexts = [] ∧
    s.mUniqueID ∈ table ∧
    w'.sKnownSets = some (table.erase s.mUniqueID) ∧
    s.mUniqueID ∉ (w'.sKnownSets.getD []) := by
  unfold RCS.rcsDtor at h
  rw [htable] at h
  by_cases hemp : s.mContexts.isEmpty
  · rw [if_neg (by simp [hemp])] at h
    dsimp only at h
    by_cases hm : s.mUniqueID ∈ table
    · rw [if_pos hm] at h
      dsimp only at h
      simp only [Option.some.injEq] at h
      subst h
      refine ⟨List.isEmpty_iff.mp hemp, hm, rfl, ?_⟩
      simpa using hnodup.not_mem_erase
    · rw [if_neg hm] at h
      simp at h
  · rw [if_pos (by simp [hemp])] at h
    simp at h

/-- C5 witness: destroying the set with identifier 4 and empty member
table in a world whose known-set table is `[4]`. -/
theorem C5_witness :
    (⟨4, []⟩ : RCS.RCSet).mContexts = [] ∧
    (⟨4, []⟩ : RCS.RCSet).mUniqueID ∈ [4] ∧
    (⟨some (List.erase [4] 4), none, [4]⟩ : RCS.SWorld).sKnownSets
      = some (List.erase [4] (⟨4, []⟩ : RCS.RCSet).mUniqueID) ∧
    (⟨4, []⟩ : RCS.RCSet).mUniqueID ∉
      ((⟨some (List.erase [4] 4), none, [4]⟩ : RCS.SWorld).sKnownSets.getD
        []) :=
  C5_dtor_removes_once ⟨some [4], none, []⟩ ⟨4, []⟩ true
    ⟨some (List.erase [4] 4), none, [4]⟩ [4] rfl (by decide) rfl

/-- C4: (spec-modelled handshake) an epoch increment performed while an
unsubscribe is pending strictly increases the epoch, and an
acknowledgement carrying an epoch smaller than the group's current
epoch is never accepted: it is discarded and the group is unchanged. -/
theorem C4_epoch_monotone_stale_ack (g : Epoch.Group) (ackEpoch : Nat)
    (success : Bool) :
    (g.state = Epoch.SubState.UnsubscribePending →
      g.epoch < (Epoch.registerRef g).epoch) ∧
    (ackEpoch < g.epoch →
      Epoch.recvAck g ackEpoch success = (g, false)) := by
  constructor
  · intro h
    simp [Epoch.registerRef, h]
  · intro h
    unfold Epoch.recvAck
    rw [if_neg]
    simp only [Bool.and_eq_true, beq_iff_eq]
    intro hcontra
    omega

/-- C4 witness: the group pending at epoch 2 bumps to epoch 3 on a new
reference, and discards a successful acknowledgement stamped with the
stale epoch 1. -/
theorem C4_witness :
    (⟨Epoch.SubState.UnsubscribePending, 2, 0⟩ : Epoch.Group).epoch <
      (Epoch.registerRef
        ⟨Epoch.SubState.UnsubscribePending, 2, 0⟩).epoch ∧
    Epoch.recvAck ⟨Epoch.SubState.UnsubscribePending, 2, 0⟩ 1 true
      = (⟨Epoch.SubState.UnsubscribePending, 2, 0⟩, false) :=
  ⟨(C4_epoch_monotone_stale_ack
      ⟨Epoch.SubState.UnsubscribePending, 2, 0⟩ 1 true).1 rfl,
   (C4_epoch_monotone_stale_ack
      ⟨Epoch.SubState.UnsubscribePending, 2, 0⟩ 1 true).2 (by decide)⟩
